import Mathlib

/-!
Verification development for the EBridge connection-pairing state machine and
duplex relay engine (EmBitz/EBlink repository, `src/EBridge/ebridge.cpp` and
`src/EBridge/ebridge.c`).

The repository ships two implementations of the same bridge:

* `ebridge.cpp` — three threads (`mainListenerThread`, `clientListenerThread`,
  `bridgeLoop`) sharing the globals `g_mainSock`, `g_clientSock`,
  `g_mainConnected`, `g_mainIP`, `g_clientIP`.
* `ebridge.c`  — a single-threaded poll loop in `main` with `fd_main`,
  `fd_client`, using `splice` in `bridge_sockets`.

The shallow embedding below models the shared session state of `ebridge.cpp`
as a record `GState`, and each critical section of the three threads as a pure
step function producing the new state together with its observable side
effects (emitted log events, closed socket descriptors, bytes handed to
`send`).  Socket descriptors are `Option Nat` (`none` stands for the sentinel
`-1`).  Reachability is the reflexive-transitive closure of the three step
functions from the initial state.  Pieces of `ebridge.c` that claims refer to
(`make_listen_socket`, the early-data check, `BUF_SIZE`) are embedded
separately under names matching that file.
-/

namespace EBridge

/-- The shared globals of `ebridge.cpp` (lines 87-90) that make up the session
state: `g_mainSock`, `g_clientSock` (socket fd or `-1`, modelled as
`Option Nat`), `g_mainConnected`, `g_mainIP`, `g_clientIP`. -/
structure GState where
  mainSock : Option Nat
  clientSock : Option Nat
  mainConnected : Bool
  mainIP : String
  clientIP : String
  deriving Repr, DecidableEq

/-- Initial values of the globals at process start (`ebridge.cpp` lines
87-90): both sockets `-1`, `g_mainConnected` false, both IP strings empty. -/
def initState : GState :=
  { mainSock := none, clientSock := none, mainConnected := false,
    mainIP := "", clientIP := "" }

/-- The observable outcome of one critical section of a thread: the state of
the globals afterwards, the log events emitted (`log(...)` calls), the socket
descriptors passed to `close`, and the byte chunks passed to `send` towards
each peer. -/
structure StepOut where
  state : GState
  events : List String
  closedSocks : List Nat
  sentToClient : List Nat
  sentToMain : List Nat
  deriving Repr, DecidableEq

/-- `mainListenerThread`, accept handling (`ebridge.cpp` lines 240-254): a new
connection `sock` arrives on the main port with peer address `ip`.  If
`g_mainSock != -1` the new socket is closed and a rejection is logged;
otherwise the socket is recorded in `g_mainSock`, `g_mainConnected` is set,
and `g_mainIP` is recorded. -/
def mainAccept (s : GState) (sock : Nat) (ip : String) : StepOut :=
  match s.mainSock with
  | some _ =>
      { state := s, events := ["Main rejected: already connected"],
        closedSocks := [sock], sentToClient := [], sentToMain := [] }
  | none =>
      { state := { s with mainSock := some sock, mainConnected := true,
                          mainIP := ip },
        events := ["Main connected from " ++ ip],
        closedSocks := [], sentToClient := [], sentToMain := [] }

/-- `clientListenerThread`, accept handling (`ebridge.cpp` lines 302-319): a
new connection `sock` arrives on the client port with peer address `ip`.  If
`!g_mainConnected` the socket is closed and "main not connected" is logged;
else if `g_clientSock != -1` the socket is closed and "already connected" is
logged; otherwise the socket and `g_clientIP` are recorded. -/
def clientAccept (s : GState) (sock : Nat) (ip : String) : StepOut :=
  if s.mainConnected = false then
    { state := s, events := ["Client rejected: main not connected"],
      closedSocks := [sock], sentToClient := [], sentToMain := [] }
  else
    match s.clientSock with
    | some _ =>
        { state := s, events := ["Client rejected: already connected"],
          closedSocks := [sock], sentToClient := [], sentToMain := [] }
    | none =>
        { state := { s with clientSock := some sock, clientIP := ip },
          events := ["Client connected from " ++ ip],
          closedSocks := [], sentToClient := [], sentToMain := [] }

/-- What one `recv` observation on a socket during a `bridgeLoop` iteration
can be: the descriptor was not ready (`idle`), `recv` returned `n <= 0`
(end-of-stream or I/O error, `eof`), or `recv` returned `n > 0` bytes
(`data`). -/
inductive ReadEvent where
  | idle
  | eof
  | data (bytes : List Nat)
  deriving Repr, DecidableEq

/-- `bridgeLoop`, main-disconnect branch (`ebridge.cpp` lines 372-384):
`recv` on the main socket returned `n <= 0`, so the main socket `ms` is
closed and cleared with `g_mainConnected = false`, and if `g_clientSock !=
-1` the client socket is closed and cleared as well (cascade). -/
def mainDisconnect (s : GState) (ms : Nat) : StepOut :=
  match s.clientSock with
  | some cs =>
      { state := { s with mainSock := none, mainConnected := false,
                          clientSock := none },
        events := ["Main disconnected", "Closing client because main disconnected"],
        closedSocks := [ms, cs], sentToClient := [], sentToMain := [] }
  | none =>
      { state := { s with mainSock := none, mainConnected := false },
        events := ["Main disconnected"],
        closedSocks := [ms], sentToClient := [], sentToMain := [] }

/-- `bridgeLoop`, client branch of one iteration (`ebridge.cpp` lines
390-407), reached when the main branch did not `continue`.  `fromMain` is
whatever the main branch already passed to `send(g_clientSock, ...)` in this
iteration.  On `recv <= 0` the client socket is closed and cleared and, if
`g_mainSock != -1`, the main socket is closed and cleared with
`g_mainConnected = false` (cascade).  On data, the bytes are passed to
`send(g_mainSock, ...)` when `haveMain`. -/
def clientBranch (s : GState) (fromMain : List Nat) (ev : ReadEvent) : StepOut :=
  match s.clientSock, ev with
  | some cs, .eof =>
      match s.mainSock with
      | some ms =>
          { state := { s with clientSock := none, mainSock := none,
                              mainConnected := false },
            events := ["Client disconnected", "Closing main because client disconnected"],
            closedSocks := [cs, ms], sentToClient := fromMain, sentToMain := [] }
      | none =>
          { state := { s with clientSock := none },
            events := ["Client disconnected"],
            closedSocks := [cs], sentToClient := fromMain, sentToMain := [] }
  | some _, .data b =>
      { state := s, events := [], closedSocks := [],
        sentToClient := fromMain,
        sentToMain := if s.mainSock.isSome then b else [] }
  | _, _ =>
      { state := s, events := [], closedSocks := [],
        sentToClient := fromMain, sentToMain := [] }

/-- One iteration of `bridgeLoop` (`ebridge.cpp` lines 336-407).  The
snapshots `haveMain`/`haveClient` are taken at the top; if both sockets are
absent the iteration only sleeps.  Otherwise the main branch runs first: on
`recv <= 0` it performs the main-disconnect cascade and `continue`s (skipping
the client branch); on data it passes the bytes to `send(g_clientSock, ...)`
only `if (haveClient)` — otherwise the read bytes are simply dropped — and
falls through to the client branch. -/
def bridgeIter (s : GState) (mainEv clientEv : ReadEvent) : StepOut :=
  if s.mainSock.isNone && s.clientSock.isNone then
    { state := s, events := [], closedSocks := [],
      sentToClient := [], sentToMain := [] }
  else
    match s.mainSock, mainEv with
    | some ms, .eof => mainDisconnect s ms
    | some _, .data b =>
        clientBranch s (if s.clientSock.isSome then b else []) clientEv
    | _, _ => clientBranch s [] clientEv

/-- One transition of the shared session state: a main-listener accept, a
client-listener accept, or one `bridgeLoop` iteration.  Mutual exclusion of
the critical sections makes each of these a single atomic step. -/
inductive Step : GState → GState → Prop where
  | mainAcc (s : GState) (sock : Nat) (ip : String) :
      Step s (mainAccept s sock ip).state
  | clientAcc (s : GState) (sock : Nat) (ip : String) :
      Step s (clientAccept s sock ip).state
  | bridge (s : GState) (mainEv clientEv : ReadEvent) :
      Step s (bridgeIter s mainEv clientEv).state

/-- States reachable from the initial state by any interleaving of the three
threads' steps. -/
inductive Reachable : GState → Prop where
  | init : Reachable initState
  | step {s t : GState} : Reachable s → Step s t → Reachable t

/-- The inductive invariant of the session state: the `g_mainConnected` flag
agrees with occupancy of `g_mainSock`, and a present client implies a present
main. -/
def Inv (s : GState) : Prop :=
  s.mainConnected = s.mainSock.isSome ∧ (s.clientSock.isSome → s.mainSock.isSome)

theorem inv_initState : Inv initState := by
  constructor <;> simp [initState]

theorem inv_mainAccept (s : GState) (sock : Nat) (ip : String)
    (h : Inv s) : Inv (mainAccept s sock ip).state := by
  obtain ⟨h1, h2⟩ := h
  cases hm : s.mainSock with
  | some m =>
      have hst : (mainAccept s sock ip).state = s := by simp [mainAccept, hm]
      rw [hst]; exact ⟨h1, h2⟩
  | none => simp [mainAccept, hm, Inv]

theorem inv_clientAccept (s : GState) (sock : Nat) (ip : String)
    (h : Inv s) : Inv (clientAccept s sock ip).state := by
  obtain ⟨h1, h2⟩ := h
  by_cases hc : s.mainConnected = false
  · have hst : (clientAccept s sock ip).state = s := by simp [clientAccept, hc]
    rw [hst]; exact ⟨h1, h2⟩
  · have hct : s.mainConnected = true := by
      revert hc; cases s.mainConnected <;> simp
    cases hcs : s.clientSock with
    | some c =>
        have hst : (clientAccept s sock ip).state = s := by
          simp [clientAccept, hct, hcs]
        rw [hst]; exact ⟨h1, h2⟩
    | none =>
        have hms : s.mainSock.isSome = true := h1.symm.trans hct
        simp [clientAccept, hct, hcs, Inv, h1, hms]

theorem inv_clientBranch (s : GState) (fm : List Nat) (ev : ReadEvent)
    (h : Inv s) : Inv (clientBranch s fm ev).state := by
  obtain ⟨h1, h2⟩ := h
  cases hcs : s.clientSock with
  | some cs =>
      cases ev with
      | eof =>
          cases hm : s.mainSock with
          | some ms => simp [clientBranch, hcs, hm, Inv]
          | none => simp [clientBranch, hcs, hm, Inv, h1]
      | data b =>
          have hst : (clientBranch s fm (.data b)).state = s := by
            simp [clientBranch, hcs]
          rw [hst]; exact ⟨h1, h2⟩
      | idle =>
          have hst : (clientBranch s fm .idle).state = s := by
            simp [clientBranch, hcs]
          rw [hst]; exact ⟨h1, h2⟩
  | none =>
      have hst : (clientBranch s fm ev).state = s := by
        cases ev <;> simp [clientBranch, hcs]
      rw [hst]; exact ⟨h1, h2⟩

theorem inv_bridgeIter (s : GState) (mainEv clientEv : ReadEvent)
    (h : Inv s) : Inv (bridgeIter s mainEv clientEv).state := by
  by_cases hb : (s.mainSock.isNone && s.clientSock.isNone) = true
  · have hst : (bridgeIter s mainEv clientEv).state = s := by simp [bridgeIter, hb]
    rw [hst]; exact h
  · cases hm : s.mainSock with
    | none =>
        cases hcn : s.clientSock with
        | none => exact absurd (by simp [hm, hcn]) hb
        | some cs =>
            have heq : bridgeIter s mainEv clientEv = clientBranch s [] clientEv := by
              cases mainEv <;> simp [bridgeIter, hm, hcn]
            rw [heq]; exact inv_clientBranch s [] clientEv h
    | some ms =>
        cases mainEv with
        | eof =>
            have heq : bridgeIter s .eof clientEv = mainDisconnect s ms := by
              simp [bridgeIter, hb, hm]
            rw [heq]
            cases hcs : s.clientSock <;> simp [mainDisconnect, hcs, Inv]
        | data b =>
            have heq : bridgeIter s (.data b) clientEv
                = clientBranch s (if s.clientSock.isSome then b else []) clientEv := by
              simp [bridgeIter, hb, hm]
            rw [heq]; exact inv_clientBranch s _ clientEv h
        | idle =>
            have heq : bridgeIter s .idle clientEv = clientBranch s [] clientEv := by
              simp [bridgeIter, hb, hm]
            rw [heq]; exact inv_clientBranch s [] clientEv h

theorem inv_step {s t : GState} (h : Inv s) (hst : Step s t) : Inv t := by
  cases hst with
  | mainAcc sock ip => exact inv_mainAccept s sock ip h
  | clientAcc sock ip => exact inv_clientAccept s sock ip h
  | bridge me ce => exact inv_bridgeIter s me ce h

theorem reachable_inv {s : GState} (h : Reachable s) : Inv s := by
  induction h with
  | init => exact inv_initState
  | step _ hst ih => exact inv_step ih hst

/-- Size of the relay buffer in `ebridge.cpp` `bridgeLoop` (line 335:
`char buffer[4096]`): each `recv` reads at most this many bytes. -/
def CPP_BUFSIZE : Nat := 4096

/-- `#define BUF_SIZE 65536` in `ebridge.c` (line 86): the chunk size passed
to `splice` in `bridge_sockets`. -/
def C_BUF_SIZE : Nat := 65536

/-- Repeated `bridgeLoop` iterations relaying a list of main-side `recv`
chunks towards the client: per iteration, the chunk is read on the main
socket and whatever `bridgeIter` hands to `send(g_clientSock, ...)` is
collected, continuing from the resulting state. -/
def relayMainToClient (s : GState) : List (List Nat) → List Nat
  | [] => []
  | b :: bs =>
      (bridgeIter s (.data b) .idle).sentToClient
        ++ relayMainToClient (bridgeIter s (.data b) .idle).state bs

/-- Repeated `bridgeLoop` iterations relaying a list of client-side `recv`
chunks towards the main side, collecting what is handed to
`send(g_mainSock, ...)`. -/
def relayClientToMain (s : GState) : List (List Nat) → List Nat
  | [] => []
  | b :: bs =>
      (bridgeIter s .idle (.data b)).sentToMain
        ++ relayClientToMain (bridgeIter s .idle (.data b)).state bs

/-- Outcome of the startup phase of a listener thread in `ebridge.cpp`
(`mainListenerThread` lines 217-224, `clientListenerThread` lines 279-286):
either the socket is bound and the accept loop is entered, or `bind`/`listen`
failed and the thread logs a message and returns. -/
inductive CppListenerStart where
  | enterLoop (sock : Nat)
  | threadReturn (msg : String)
  deriving Repr, DecidableEq

/-- Result of the `bind` call for a listening socket. -/
inductive BindResult where
  | ok (sock : Nat)
  | failed
  deriving Repr, DecidableEq

/-- `mainListenerThread` startup (`ebridge.cpp` lines 217-224): on bind
failure it executes `log("Failed to bind main port"); return;` — the thread
returns, nothing calls `exit`. -/
def cppMainListenerStart (r : BindResult) : CppListenerStart :=
  match r with
  | .ok sock => .enterLoop sock
  | .failed => .threadReturn "Failed to bind main port"

/-- How one of the three `ebridge.cpp` threads ends: either it loops `while
(g_running)` and returns only once shutdown is requested, or it already
returned early (bind/listen failure path). -/
inductive ThreadLife where
  | runsUntilShutdown
  | returnsEarly
  deriving Repr, DecidableEq

/-- Classify a listener thread's life from its startup outcome: entering the
accept loop means running until `g_running` becomes false; the bind-failure
path returns from the thread immediately. -/
def cppThreadLife (st : CppListenerStart) : ThreadLife :=
  match st with
  | .enterLoop _ => .runsUntilShutdown
  | .threadReturn _ => .returnsEarly

/-- Whether the `ebridge.cpp` process exits, given whether a shutdown signal
has set `g_running := false` and the lives of its threads: `main` (lines
484-492) joins all three threads and only then returns, and a thread running
its `while (g_running)` loop returns only once shutdown is requested. -/
def cppProcessExits (shutdownRequested : Bool) (lives : List ThreadLife) : Bool :=
  lives.all (fun l =>
    match l with
    | .runsUntilShutdown => shutdownRequested
    | .returnsEarly => true)

/-- Result of `make_listen_socket` in `ebridge.c`: either a listening socket,
or process termination via `exit`. -/
inductive CStartResult where
  | listening (sock : Nat)
  | processExit (code : Nat)
  deriving Repr, DecidableEq

/-- `make_listen_socket` (`ebridge.c` lines 171-199): on `bind` failure it
logs and calls `exit(1)`; on success it returns the listening socket. -/
def make_listen_socket (r : BindResult) : CStartResult :=
  match r with
  | .ok sock => .listening sock
  | .failed => .processExit 1

/-- Result of one `read(fd_main, ...)` probe in the `ebridge.c` main loop:
`read` returned `n >= 0` bytes (with `n = 0` meaning end-of-stream), or `-1`
with `EAGAIN`/`EWOULDBLOCK` (no data pending), or `-1` with a real error. -/
inductive CReadResult where
  | bytes (n : Nat)
  | wouldBlock
  | err
  deriving Repr, DecidableEq

/-- Observable outcome of the `ebridge.c` early-data check: the value of
`fd_main` afterwards, the descriptors closed, and the messages logged. -/
structure EarlyOut where
  fdMain : Option Nat
  closedSocks : List Nat
  events : List String
  deriving Repr, DecidableEq

/-- `ebridge.c` `main` lines 378-387: when `fd_main > 0 && fd_client < 0`,
the loop probes `read(fd_main, ...)`; if it returns `n >= 0` (early data or
end-of-stream) or fails with an errno other than `EAGAIN`/`EWOULDBLOCK`,
the main socket is closed and cleared and
"[main] closed on early data or error" is logged. -/
def earlyDataCheck (fdMain fdClient : Option Nat) (r : CReadResult) : EarlyOut :=
  match fdMain, fdClient with
  | some m, none =>
      match r with
      | .wouldBlock => { fdMain := some m, closedSocks := [], events := [] }
      | _ =>
          { fdMain := none, closedSocks := [m],
            events := ["[main] closed on early data or error"] }
  | _, _ => { fdMain := fdMain, closedSocks := [], events := [] }

/-- C1: for every reachable state of the session state machine (reachable by
any interleaving of main accepts, client accepts, relay disconnect handling
and cascade teardowns), if the client handle is present then the main handle
is present: the client role never precedes and never outlives the main
role. -/
theorem C1_client_implies_main {s : GState} (h : Reachable s)
    (hc : s.clientSock.isSome) : s.mainSock.isSome :=
  (reachable_inv h).2 hc

/-- Witness for C1 at the concrete state reached by a main accept followed by
a client accept. -/
theorem C1_client_implies_main_witness :
    ((clientAccept (mainAccept initState 5 "10.0.0.5").state 7 "10.0.1.9").state).mainSock.isSome :=
  C1_client_implies_main
    (Reachable.step
      (Reachable.step Reachable.init (Step.mainAcc initState 5 "10.0.0.5"))
      (Step.clientAcc (mainAccept initState 5 "10.0.0.5").state 7 "10.0.1.9"))
    (by decide)

/-- C10: for every reachable state during the program's run, the flag
`g_mainConnected` is true if and only if the main handle is occupied
(`g_mainSock != -1`): every operation that sets or clears the main socket
updates the flag in the same step, so the client listener's admission check
based on the flag agrees with actual main occupancy. -/
theorem C10_flag_agrees_with_mainSock {s : GState} (h : Reachable s) :
    s.mainConnected = s.mainSock.isSome :=
  (reachable_inv h).1

/-- Witness for C10 at the concrete state reached by a main accept followed
by a bridge iteration that observes end-of-stream on the main socket. -/
theorem C10_flag_agrees_with_mainSock_witness :
    ((bridgeIter (mainAccept initState 5 "8.8.8.8").state .eof .idle).state).mainConnected
      = ((bridgeIter (mainAccept initState 5 "8.8.8.8").state .eof .idle).state).mainSock.isSome :=
  C10_flag_agrees_with_mainSock
    (Reachable.step
      (Reachable.step Reachable.init (Step.mainAcc initState 5 "8.8.8.8"))
      (Step.bridge (mainAccept initState 5 "8.8.8.8").state .eof .idle))

/-- C2: whenever the relay engine observes end-of-stream or a read I/O error
(`recv` returning `n <= 0`) on either side while both handles are present,
the same bridge iteration performs the cascade teardown as one atomic step:
both endpoint sockets are closed and both session-state fields are cleared
together, with `g_mainConnected` reset, returning the state machine to IDLE
so a new session can form. -/
theorem C2_cascade_teardown {s : GState} {ms cs : Nat} (mainEv clientEv : ReadEvent)
    (hm : s.mainSock = some ms) (hc : s.clientSock = some cs)
    (hev : mainEv = ReadEvent.eof ∨ clientEv = ReadEvent.eof) :
    (bridgeIter s mainEv clientEv).state.mainSock = none ∧
    (bridgeIter s mainEv clientEv).state.clientSock = none ∧
    (bridgeIter s mainEv clientEv).state.mainConnected = false ∧
    ms ∈ (bridgeIter s mainEv clientEv).closedSocks ∧
    cs ∈ (bridgeIter s mainEv clientEv).closedSocks := by
  rcases hev with he | he
  · subst he
    simp [bridgeIter, hm, hc, mainDisconnect]
  · subst he
    cases mainEv with
    | eof => simp [bridgeIter, hm, hc, mainDisconnect]
    | data b => simp [bridgeIter, hm, hc, clientBranch]
    | idle => simp [bridgeIter, hm, hc, clientBranch]

/-- Witness for C2 at a concrete bridged state observing end-of-stream on the
main side. -/
theorem C2_cascade_teardown_witness :
    (bridgeIter ⟨some 3, some 4, true, "a", "b"⟩ .eof .idle).state.mainSock = none ∧
    (bridgeIter ⟨some 3, some 4, true, "a", "b"⟩ .eof .idle).state.clientSock = none ∧
    (bridgeIter ⟨some 3, some 4, true, "a", "b"⟩ .eof .idle).state.mainConnected = false ∧
    3 ∈ (bridgeIter ⟨some 3, some 4, true, "a", "b"⟩ .eof .idle).closedSocks ∧
    4 ∈ (bridgeIter ⟨some 3, some 4, true, "a", "b"⟩ .eof .idle).closedSocks :=
  C2_cascade_teardown .eof .idle rfl rfl (Or.inl rfl)

/-- C4: a connection attempt on the client endpoint while the main handle is
absent (state IDLE) is closed immediately, a "Client rejected: main not
connected" event is emitted, and the session state is unchanged. -/
theorem C4_premain_client_rejected {s : GState} (h : Reachable s)
    (hm : s.mainSock = none) (sock : Nat) (ip : String) :
    (clientAccept s sock ip).state = s ∧
    (clientAccept s sock ip).closedSocks = [sock] ∧
    (clientAccept s sock ip).events = ["Client rejected: main not connected"] := by
  have h1 := (reachable_inv h).1
  have hcf : s.mainConnected = false := by simp [h1, hm]
  refine ⟨?_, ?_, ?_⟩ <;> simp [clientAccept, hcf]

/-- Witness for C4 at the initial (IDLE) state. -/
theorem C4_premain_client_rejected_witness :
    (clientAccept initState 9 "10.0.1.9").state = initState ∧
    (clientAccept initState 9 "10.0.1.9").closedSocks = [9] ∧
    (clientAccept initState 9 "10.0.1.9").events = ["Client rejected: main not connected"] :=
  C4_premain_client_rejected Reachable.init rfl 9 "10.0.1.9"

/-- C5: each role is occupied by at most one handle; a second accept for an
already-occupied role closes the new socket immediately, emits a rejection
event, and leaves the session state unchanged — the connection is rejected,
never queued for later. -/
theorem C5_duplicate_accept_rejected {s : GState} (h : Reachable s)
    (sock : Nat) (ip : String) :
    (s.mainSock.isSome →
      (mainAccept s sock ip).state = s ∧
      (mainAccept s sock ip).closedSocks = [sock] ∧
      (mainAccept s sock ip).events = ["Main rejected: already connected"]) ∧
    (s.clientSock.isSome →
      (clientAccept s sock ip).state = s ∧
      (clientAccept s sock ip).closedSocks = [sock] ∧
      (clientAccept s sock ip).events = ["Client rejected: already connected"]) := by
  obtain ⟨h1, h2⟩ := reachable_inv h
  constructor
  · intro hm
    obtain ⟨m, hms⟩ := Option.isSome_iff_exists.mp hm
    refine ⟨?_, ?_, ?_⟩ <;> simp [mainAccept, hms]
  · intro hc
    have hct : s.mainConnected = true := h1.trans (h2 hc)
    obtain ⟨c, hcs⟩ := Option.isSome_iff_exists.mp hc
    refine ⟨?_, ?_, ?_⟩ <;> simp [clientAccept, hct, hcs]

/-- Witness for C5 at a concrete reachable state with both roles occupied. -/
theorem C5_duplicate_accept_rejected_witness :
    (((clientAccept (mainAccept initState 5 "m").state 7 "c").state).mainSock.isSome →
      (mainAccept ((clientAccept (mainAccept initState 5 "m").state 7 "c").state) 9 "x").state
          = (clientAccept (mainAccept initState 5 "m").state 7 "c").state ∧
      (mainAccept ((clientAccept (mainAccept initState 5 "m").state 7 "c").state) 9 "x").closedSocks = [9] ∧
      (mainAccept ((clientAccept (mainAccept initState 5 "m").state 7 "c").state) 9 "x").events
          = ["Main rejected: already connected"]) ∧
    (((clientAccept (mainAccept initState 5 "m").state 7 "c").state).clientSock.isSome →
      (clientAccept ((clientAccept (mainAccept initState 5 "m").state 7 "c").state) 9 "x").state
          = (clientAccept (mainAccept initState 5 "m").state 7 "c").state ∧
      (clientAccept ((clientAccept (mainAccept initState 5 "m").state 7 "c").state) 9 "x").closedSocks = [9] ∧
      (clientAccept ((clientAccept (mainAccept initState 5 "m").state 7 "c").state) 9 "x").events
          = ["Client rejected: already connected"]) :=
  C5_duplicate_accept_rejected
    (Reachable.step
      (Reachable.step Reachable.init (Step.mainAcc initState 5 "m"))
      (Step.clientAcc (mainAccept initState 5 "m").state 7 "c"))
    9 "x"

/-- C8: a rejected duplicate accept on either role, while that role is
already occupied, leaves the existing occupant untouched: the occupant's
socket is not among the closed descriptors and every session-state field
keeps its prior value; only the newly accepted socket is closed. -/
theorem C8_rejection_noninterference {s : GState} (h : Reachable s)
    (sock : Nat) (ip : String) :
    (∀ m, s.mainSock = some m → sock ≠ m →
      (mainAccept s sock ip).state = s ∧
      (mainAccept s sock ip).closedSocks = [sock] ∧
      m ∉ (mainAccept s sock ip).closedSocks) ∧
    (∀ c, s.clientSock = some c → sock ≠ c →
      (clientAccept s sock ip).state = s ∧
      (clientAccept s sock ip).closedSocks = [sock] ∧
      c ∉ (clientAccept s sock ip).closedSocks) := by
  obtain ⟨h1, h2⟩ := reachable_inv h
  constructor
  · intro m hms hne
    refine ⟨?_, ?_, ?_⟩ <;>
      simp [mainAccept, hms, Ne.symm hne]
  · intro c hcs hne
    have hct : s.mainConnected = true := h1.trans (h2 (by simp [hcs]))
    refine ⟨?_, ?_, ?_⟩ <;>
      simp [clientAccept, hct, hcs, Ne.symm hne]

/-- Witness for C8 at a concrete reachable state with both roles occupied. -/
theorem C8_rejection_noninterference_witness :
    (∀ m, ((clientAccept (mainAccept initState 5 "m").state 7 "c").state).mainSock = some m →
        9 ≠ m →
      (mainAccept ((clientAccept (mainAccept initState 5 "m").state 7 "c").state) 9 "x").state
          = (clientAccept (mainAccept initState 5 "m").state 7 "c").state ∧
      (mainAccept ((clientAccept (mainAccept initState 5 "m").state 7 "c").state) 9 "x").closedSocks = [9] ∧
      m ∉ (mainAccept ((clientAccept (mainAccept initState 5 "m").state 7 "c").state) 9 "x").closedSocks) ∧
    (∀ c, ((clientAccept (mainAccept initState 5 "m").state 7 "c").state).clientSock = some c →
        9 ≠ c →
      (clientAccept ((clientAccept (mainAccept initState 5 "m").state 7 "c").state) 9 "x").state
          = (clientAccept (mainAccept initState 5 "m").state 7 "c").state ∧
      (clientAccept ((clientAccept (mainAccept initState 5 "m").state 7 "c").state) 9 "x").closedSocks = [9] ∧
      c ∉ (clientAccept ((clientAccept (mainAccept initState 5 "m").state 7 "c").state) 9 "x").closedSocks) :=
  C8_rejection_noninterference
    (Reachable.step
      (Reachable.step Reachable.init (Step.mainAcc initState 5 "m"))
      (Step.clientAcc (mainAccept initState 5 "m").state 7 "c"))
    9 "x"

/-- C9: every step taken by the main listener (accept, reject, record)
mutates at most the main-handle part of the session state: the client-handle
fields (`g_clientSock`, `g_clientIP`) are never written by `mainAccept`. -/
theorem C9_mainListener_frame (s : GState) (sock : Nat) (ip : String) :
    (mainAccept s sock ip).state.clientSock = s.clientSock ∧
    (mainAccept s sock ip).state.clientIP = s.clientIP := by
  cases hm : s.mainSock <;> simp [mainAccept, hm]

theorem bridgeIter_forward_mainToClient {s : GState} (b : List Nat)
    (hm : s.mainSock.isSome) (hc : s.clientSock.isSome) :
    bridgeIter s (.data b) .idle
      = { state := s, events := [], closedSocks := [],
          sentToClient := b, sentToMain := [] } := by
  obtain ⟨ms, hms⟩ := Option.isSome_iff_exists.mp hm
  obtain ⟨cs, hcs⟩ := Option.isSome_iff_exists.mp hc
  simp [bridgeIter, hms, hcs, clientBranch]

theorem bridgeIter_forward_clientToMain {s : GState} (b : List Nat)
    (hm : s.mainSock.isSome) (hc : s.clientSock.isSome) :
    bridgeIter s .idle (.data b)
      = { state := s, events := [], closedSocks := [],
          sentToClient := [], sentToMain := b } := by
  obtain ⟨ms, hms⟩ := Option.isSome_iff_exists.mp hm
  obtain ⟨cs, hcs⟩ := Option.isSome_iff_exists.mp hc
  simp [bridgeIter, hms, hcs, clientBranch, hm]

/-- C6: while BRIDGED (both handles present), for every payload relayed in
either direction in per-read chunks bounded by the relay buffer, the bytes
handed to `send` towards the peer are exactly the bytes read from the other
side, unmodified and in order; and the per-read chunk capacities of the two
implementations (`char buffer[4096]` in `ebridge.cpp`, `BUF_SIZE = 65536` in
`ebridge.c`) both lie between 4 KiB and 64 KiB. -/
theorem C6_byte_identity {s : GState} (bs : List (List Nat))
    (hm : s.mainSock.isSome) (hc : s.clientSock.isSome)
    (hbound : ∀ b ∈ bs, 0 < b.length ∧ b.length ≤ CPP_BUFSIZE) :
    relayMainToClient s bs = bs.flatten ∧
    relayClientToMain s bs = bs.flatten ∧
    4 * 1024 ≤ CPP_BUFSIZE ∧ CPP_BUFSIZE ≤ 64 * 1024 ∧
    4 * 1024 ≤ C_BUF_SIZE ∧ C_BUF_SIZE ≤ 64 * 1024 := by
  refine ⟨?_, ?_, by norm_num [CPP_BUFSIZE], by norm_num [CPP_BUFSIZE],
    by norm_num [C_BUF_SIZE], by norm_num [C_BUF_SIZE]⟩
  · induction bs with
    | nil => rfl
    | cons b bs ih =>
        rw [relayMainToClient, bridgeIter_forward_mainToClient b hm hc]
        simpa using ih (fun x hx => hbound x (by simp [hx]))
  · induction bs with
    | nil => rfl
    | cons b bs ih =>
        rw [relayClientToMain, bridgeIter_forward_clientToMain b hm hc]
        simpa using ih (fun x hx => hbound x (by simp [hx]))

/-- Witness for C6 at a concrete bridged state and a concrete two-chunk
payload. -/
theorem C6_byte_identity_witness :
    relayMainToClient ⟨some 3, some 4, true, "a", "b"⟩ [[1, 2], [3]] = [1, 2, 3] ∧
    relayClientToMain ⟨some 3, some 4, true, "a", "b"⟩ [[1, 2], [3]] = [1, 2, 3] ∧
    4 * 1024 ≤ CPP_BUFSIZE ∧ CPP_BUFSIZE ≤ 64 * 1024 ∧
    4 * 1024 ≤ C_BUF_SIZE ∧ C_BUF_SIZE ≤ 64 * 1024 := by
  have h := C6_byte_identity (s := ⟨some 3, some 4, true, "a", "b"⟩)
    [[1, 2], [3]] (by decide) (by decide) (by decide)
  simpa using h

/-- C3 counterexample: in `ebridge.cpp`, in state MAIN_WAITING_CLIENT (main
present as socket 5, client absent), a bridge iteration in which `recv`
returns data on the main socket leaves the state unchanged, closes nothing,
and forwards nothing: the bytes are read into the buffer and silently
dropped (`if (haveClient) send(...)` with `haveClient` false), the main
connection is not closed, and the state does not return to IDLE — contrary
to the claim. -/
theorem C3_counterexample :
    (bridgeIter ⟨some 5, none, true, "10.0.0.5", ""⟩ (.data [7]) .idle).state
        = ⟨some 5, none, true, "10.0.0.5", ""⟩ ∧
    (bridgeIter ⟨some 5, none, true, "10.0.0.5", ""⟩ (.data [7]) .idle).closedSocks = [] ∧
    (bridgeIter ⟨some 5, none, true, "10.0.0.5", ""⟩ (.data [7]) .idle).sentToClient = [] ∧
    ¬ (bridgeIter ⟨some 5, none, true, "10.0.0.5", ""⟩ (.data [7]) .idle).state.mainSock = none := by
  refine ⟨?_, ?_, ?_, ?_⟩ <;> decide

/-- C3 amended: the two implementations diverge on premature main data.  In
the C implementation (`ebridge.c`), data, end-of-stream or a non-EAGAIN error
observed on the main connection while the client side is absent is treated as
a protocol violation handled like a relay I/O error: the main socket is
closed, `fd_main` is cleared (back to IDLE) and a violation event is logged.
In the C++ implementation (`ebridge.cpp`), the arriving bytes are read and
silently discarded — not buffered and not forwarded — and the main connection
stays open. -/
theorem C3_amended_early_data {s : GState} (m : Nat) (r : CReadResult) (b : List Nat)
    (hr : r ≠ CReadResult.wouldBlock) (hm : s.mainSock.isSome)
    (hc : s.clientSock = none) :
    earlyDataCheck (some m) none r
      = { fdMain := none, closedSocks := [m],
          events := ["[main] closed on early data or error"] } ∧
    (bridgeIter s (.data b) .idle).state = s ∧
    (bridgeIter s (.data b) .idle).closedSocks = [] ∧
    (bridgeIter s (.data b) .idle).sentToClient = [] := by
  obtain ⟨ms, hms⟩ := Option.isSome_iff_exists.mp hm
  refine ⟨?_, ?_, ?_, ?_⟩
  · cases r with
    | bytes n => rfl
    | wouldBlock => exact absurd rfl hr
    | err => rfl
  all_goals simp [bridgeIter, hms, hc, clientBranch]

/-- Witness for the amended C3 at a concrete read result and state. -/
theorem C3_amended_early_data_witness :
    earlyDataCheck (some 5) none (.bytes 3)
      = { fdMain := none, closedSocks := [5],
          events := ["[main] closed on early data or error"] } ∧
    (bridgeIter ⟨some 5, none, true, "m", ""⟩ (.data [9]) .idle).state
        = ⟨some 5, none, true, "m", ""⟩ ∧
    (bridgeIter ⟨some 5, none, true, "m", ""⟩ (.data [9]) .idle).closedSocks = [] ∧
    (bridgeIter ⟨some 5, none, true, "m", ""⟩ (.data [9]) .idle).sentToClient = [] :=
  C3_amended_early_data (s := ⟨some 5, none, true, "m", ""⟩) 5 (.bytes 3) [9]
    (by decide) (by decide) rfl

/-- C7 counterexample: in `ebridge.cpp`, when the main listener's `bind`
fails, `mainListenerThread` logs "Failed to bind main port" and returns
(lines 217-220); with the client listener and bridge threads still in their
`while (g_running)` loops and no shutdown requested, `main`'s joins (lines
490-492) do not complete, so the process keeps running with fewer than both
listeners bound — contrary to the claim that the failure is fatal. -/
theorem C7_counterexample :
    cppMainListenerStart .failed = .threadReturn "Failed to bind main port" ∧
    cppProcessExits false
      [cppThreadLife (cppMainListenerStart .failed),
       cppThreadLife (.enterLoop 3), ThreadLife.runsUntilShutdown] = false :=
  ⟨rfl, rfl⟩

/-- C7 amended: a bind failure at startup is fatal only in the C
implementation, where `make_listen_socket` terminates the process with exit
code 1.  In the C++ implementation, only the affected listener thread logs
and returns, and the process keeps running with the remaining threads until a
shutdown signal is delivered. -/
theorem C7_amended_bind_failure :
    make_listen_socket .failed = .processExit 1 ∧
    cppThreadLife (cppMainListenerStart .failed) = .returnsEarly ∧
    cppProcessExits true
      [cppThreadLife (cppMainListenerStart .failed),
       cppThreadLife (.enterLoop 3), ThreadLife.runsUntilShutdown] = true :=
  ⟨rfl, rfl, rfl⟩

end EBridge
